import Mathlib

/-!
Verification of the STL loading and viewing pipeline of the learn3D
repository (`src/components/LearningDashboard.tsx`, components `STLModel`
and `STLViewer`).

Geometry coordinates are modelled over `ℚ`; the JavaScript source computes
over IEEE-754 doubles/float32, but every property checked here is exact
min/max/affine arithmetic, so the rational model is faithful to the
structure of the computation.
-/

/-- Vector of three rational coordinates, mirroring `THREE.Vector3`. -/
structure Vec3 where
  x : ℚ
  y : ℚ
  z : ℚ
deriving DecidableEq, Repr

instance : Add Vec3 where
  add a b := ⟨a.x + b.x, a.y + b.y, a.z + b.z⟩

instance : Neg Vec3 where
  neg a := ⟨-a.x, -a.y, -a.z⟩

instance : Sub Vec3 where
  sub a b := ⟨a.x - b.x, a.y - b.y, a.z - b.z⟩

instance : Zero Vec3 where
  zero := ⟨0, 0, 0⟩

/-- Componentwise minimum of two vectors (as in `THREE.Vector3.min`). -/
def vmin (a b : Vec3) : Vec3 := ⟨min a.x b.x, min a.y b.y, min a.z b.z⟩

/-- Componentwise maximum of two vectors (as in `THREE.Vector3.max`). -/
def vmax (a b : Vec3) : Vec3 := ⟨max a.x b.x, max a.y b.y, max a.z b.z⟩

/-- Triangle with three vertex positions, mirroring one face of the parsed
`BufferGeometry`'s position attribute (face normals do not influence the
bounding box or camera framing and are not tracked here). -/
structure Tri where
  v0 : Vec3
  v1 : Vec3
  v2 : Vec3
deriving DecidableEq, Repr

/-- Mesh as an ordered triangle list, the spec's `Mesh` (§3). -/
def MeshQ : Type := List Tri

instance : DecidableEq MeshQ := inferInstanceAs (DecidableEq (List Tri))

/-- Vertex positions of a mesh in attribute order. -/
def verticesOf (m : MeshQ) : List Vec3 :=
  m.flatMap (fun t => [t.v0, t.v1, t.v2])

/-- Axis-aligned box, mirroring a non-empty `THREE.Box3`. -/
structure Box3 where
  lo : Vec3
  hi : Vec3
deriving DecidableEq, Repr

/-- One step of `THREE.Box3.expandByPoint`; `none` is the freshly
`makeEmpty`-ed box (min = +inf, max = -inf). -/
def expandByPoint (b : Option Box3) (p : Vec3) : Option Box3 :=
  match b with
  | none => some ⟨p, p⟩
  | some bx => some ⟨vmin bx.lo p, vmax bx.hi p⟩

/-- Model of `BufferGeometry.computeBoundingBox`: fold `expandByPoint`
over every vertex of the position attribute, starting from the empty box.
`none` is the empty box three.js produces for a geometry with no vertices. -/
def computeBoundingBox (m : MeshQ) : Option Box3 :=
  (verticesOf m).foldl expandByPoint none

/-- Model of `THREE.Box3.getCenter`: midpoint of min/max, and the zero
vector for the empty box (three.js returns (0,0,0) when `isEmpty()`). -/
def getCenter (b : Option Box3) : Vec3 :=
  match b with
  | none => 0
  | some bx => ⟨(bx.lo.x + bx.hi.x) / 2, (bx.lo.y + bx.hi.y) / 2, (bx.lo.z + bx.hi.z) / 2⟩

/-- Model of `THREE.Box3.getSize`: max − min, and the zero vector for the
empty box. -/
def getSize (b : Option Box3) : Vec3 :=
  match b with
  | none => 0
  | some bx => bx.hi - bx.lo

/-- Translate every vertex of the mesh by `t`, as
`BufferGeometry.translate` does to the position attribute. -/
def translateMesh (m : MeshQ) (t : Vec3) : MeshQ :=
  m.map (fun tr => ⟨tr.v0 + t, tr.v1 + t, tr.v2 + t⟩)

/-- Largest component of a size vector: `Math.max(size.x, size.y, size.z)`
from line 118 of the source. -/
def max3 (v : Vec3) : ℚ := max v.x (max v.y v.z)

/-- Output of the camera-positioning effect of `STLModel`
(`LearningDashboard.tsx` lines 106–141). -/
structure NormalizedResult where
  mesh : MeshQ
  boundingBox : Option Box3
  size : Vec3
  maxDim : ℚ
  distance : ℚ
  initialPosition : Vec3
  target : Vec3
deriving DecidableEq

/-- Shallow embedding of the geometry effect of `STLModel` (lines 106–141):
`computeBoundingBox`; `center := boundingBox.getCenter`;
`translate(-center)` — which, via `BufferGeometry.applyMatrix4`, recomputes
the stored bounding box because it is non-null; `size := boundingBox.getSize`;
`maxDim := Math.max(size.x, size.y, size.z)`; `distance := maxDim * 2`;
`initialPosition := (distance, distance, distance)`; camera position set to
`initialPosition`, `controls.target.set(0,0,0)`. `computeVertexNormals`
(line 108) does not change vertex positions and is omitted. The source's
`if (geometry.boundingBox)` guard is always taken after
`computeBoundingBox` (the field is then a `Box3` object, possibly empty),
so the effect is total here. -/
def positionModel (m : MeshQ) : NormalizedResult :=
  let bb := computeBoundingBox m
  let center := getCenter bb
  let m' := translateMesh m (-center)
  let bb' := computeBoundingBox m'
  let size := getSize bb'
  let maxDim := max3 size
  let distance := maxDim * 2
  { mesh := m'
    boundingBox := bb'
    size := size
    maxDim := maxDim
    distance := distance
    initialPosition := ⟨distance, distance, distance⟩
    target := ⟨0, 0, 0⟩ }

/-- Camera as touched by `resetView`/`zoom`: its world position and its
orthographic/perspective zoom factor (`controls.object`). -/
structure Camera where
  position : Vec3
  zoom : ℚ
deriving DecidableEq

/-- The `OrbitControls` handle (`controlsRef.current`): the controlled
camera plus the orbit target. -/
structure Controls where
  camera : Camera
  target : Vec3
deriving DecidableEq

/-- React state of `STLViewer`: the stored reset position
(`initialCameraPosition` state, line 194) together with the controls. -/
structure ViewerState where
  initialCameraPosition : Vec3
  controls : Controls
deriving DecidableEq

/-- Initial `STLViewer` state: `useState(new Vector3(5, 5, 5))` at line 194,
with whatever camera/target the canvas starts with. -/
def mkViewerState (c : Controls) : ViewerState :=
  { initialCameraPosition := ⟨5, 5, 5⟩, controls := c }

/-- Callback `handleInitialViewComputed` (lines 197–199): stores the
computed initial position in React state. -/
def handleInitialViewComputed (s : ViewerState) (p : Vec3) : ViewerState :=
  { s with initialCameraPosition := p }

/-- The `resetView` handler (lines 202–212), in the case where
`controlsRef.current` is non-null: copy `initialCameraPosition` into the
camera position, set zoom to 1, set the orbit target to the origin. -/
def viewerResetView (s : ViewerState) : ViewerState :=
  { s with
    controls :=
      { camera := { position := s.initialCameraPosition, zoom := 1 }
        target := ⟨0, 0, 0⟩ } }

/-- The `zoom` handler (lines 214–221): multiply the camera zoom by the
given factor. -/
def viewerZoom (s : ViewerState) (factor : ℚ) : ViewerState :=
  { s with
    controls :=
      { s.controls with
        camera := { s.controls.camera with zoom := s.controls.camera.zoom * factor } } }

/-- User interactions available on the viewer between loads: the reset
button, the zoom buttons / wheel, and orbit/pan drags (which let
`OrbitControls` move the camera and target arbitrarily but never touch the
`initialCameraPosition` React state). Loading a new model is not a user
action; it is `applyFraming` below. -/
inductive UserAction where
  | reset : UserAction
  | zoomBy : ℚ → UserAction
  | orbit : Camera → Vec3 → UserAction
deriving DecidableEq

/-- Apply one user interaction to the viewer state. -/
def applyAction (s : ViewerState) : UserAction → ViewerState
  | UserAction.reset => viewerResetView s
  | UserAction.zoomBy f => viewerZoom s f
  | UserAction.orbit cam t => { s with controls := { camera := cam, target := t } }

/-- Apply a sequence of user interactions left to right. -/
def applyActions (s : ViewerState) (acts : List UserAction) : ViewerState :=
  acts.foldl applyAction s

/-- Effect of a completed model load on the viewer (lines 125–132 in
`STLModel` plus the `onInitialViewComputed` callback): the camera position
is set to the computed initial position, the stored reset position is
updated to the same value, and the orbit target is set to the origin. The
camera zoom is not touched by this effect. -/
def applyFraming (s : ViewerState) (r : NormalizedResult) : ViewerState :=
  { initialCameraPosition := r.initialPosition
    controls :=
      { camera := { position := r.initialPosition, zoom := s.controls.camera.zoom }
        target := ⟨0, 0, 0⟩ } }

/-- Events of the load effect of `STLModel` (lines 58–103): the `useEffect`
re-runs whenever the `url` prop changes, starting a new `FileLoader`
fetch; the effect has no cleanup, so the success callback of every fetch
ever issued stays live. `resolve k` is the completion of the fetch started
by the k-th issued load (0-based, in issue order). -/
inductive LoadEvent where
  | issue : Nat → LoadEvent
  | resolve : Nat → LoadEvent
deriving DecidableEq

/-- State of one mounted `STLModel`: the urls of the loads issued so far
(oldest first) and the current `geometry` React state. -/
structure ModelState where
  issued : List Nat
  geometry : Option MeshQ
deriving DecidableEq

/-- One step of the load effect, parametrised by the environment `fetch`
giving the mesh each url's bytes parse to. An `issue` starts a fetch for
the new url. A `resolve k` runs the k-th fetch's success callback, which
calls `setGeometry` with that fetch's result unconditionally — the source
compares no load-generation token and cancels nothing. -/
def loadStep (fetch : Nat → MeshQ) (s : ModelState) : LoadEvent → ModelState
  | LoadEvent.issue url => { s with issued := s.issued ++ [url] }
  | LoadEvent.resolve k =>
    match s.issued[k]? with
    | some url => { s with geometry := some (fetch url) }
    | none => s

/-- Run a schedule of load events from the freshly mounted state. -/
def runLoads (fetch : Nat → MeshQ) (events : List LoadEvent) : ModelState :=
  events.foldl (loadStep fetch) { issued := [], geometry := none }

/-- Error taxonomy of the pipeline (spec §7). -/
inductive ParseError where
  | unrecognizedFormat : ParseError
  | truncatedOrCorrupt : ParseError
  | malformedFacet : ParseError
  | emptyMesh : ParseError
  | fetchFailed : ParseError
  | numericOverflow : ParseError
deriving DecidableEq

/-- Byte of a buffer at an index, 0 past the end. -/
def byteAt (buf : List Nat) (i : Nat) : Nat := buf.getD i 0

/-- Little-endian 32-bit unsigned read at a byte offset. -/
def readUInt32LE (buf : List Nat) (off : Nat) : Nat :=
  byteAt buf off + 256 * (byteAt buf (off + 1) + 256 * (byteAt buf (off + 2) + 256 * byteAt buf (off + 3)))

/-- Triangle record as read from a binary STL buffer: the three float32
bit patterns of the face normal and the nine float32 bit patterns of the
vertices v0,v1,v2, in file order. The 2-byte attribute word is skipped.
Coordinates are kept as raw 32-bit patterns; no claim here depends on
their IEEE-754 interpretation. -/
structure RawTriangle where
  normalBits : List Nat
  vertexBits : List Nat
deriving DecidableEq

/-- Record `i` of a binary STL buffer, starting at byte `84 + 50*i`:
12 bytes of normal, 36 bytes of vertices, 2 attribute bytes ignored. -/
def recordAt (buf : List Nat) (i : Nat) : RawTriangle :=
  let b := 84 + 50 * i
  { normalBits := [readUInt32LE buf b, readUInt32LE buf (b + 4), readUInt32LE buf (b + 8)]
    vertexBits :=
      [readUInt32LE buf (b + 12), readUInt32LE buf (b + 16), readUInt32LE buf (b + 20),
       readUInt32LE buf (b + 24), readUInt32LE buf (b + 28), readUInt32LE buf (b + 32),
       readUInt32LE buf (b + 36), readUInt32LE buf (b + 40), readUInt32LE buf (b + 44)] }

/-- Modelled from the spec: the binary STL decode performed by
`STLLoader.parse` (the three.js loader invoked at line 73 is not part of
the repository sources). Per spec §4.2: skip the 80-byte header, read the
4-byte little-endian triangle count `N` at offset 80, require the buffer
length to equal `84 + 50*N` exactly and fail with `TruncatedOrCorrupt`
otherwise, then read the `N` 50-byte records in order. A buffer shorter
than 84 bytes can never be valid binary STL (§4.1) and is a structural
error as well. -/
def binaryParse (buf : List Nat) : Except ParseError (List RawTriangle) :=
  if buf.length < 84 then Except.error ParseError.truncatedOrCorrupt
  else
    let n := readUInt32LE buf 80
    if buf.length = 84 + 50 * n then Except.ok ((List.range n).map (recordAt buf))
    else Except.error ParseError.truncatedOrCorrupt

/-- ASCII lowercase of a character, as `toLowerCase` acts on A–Z. -/
def toLowerChar (c : Char) : Char :=
  if 65 ≤ c.toNat ∧ c.toNat ≤ 90 then Char.ofNat (c.toNat + 32) else c

/-- Case-insensitive comparison of a token against a keyword. -/
def lowEq (t kw : List Char) : Bool := t.map toLowerChar == kw

def kwSolid : List Char := ['s', 'o', 'l', 'i', 'd']

def kwEndsolid : List Char := ['e', 'n', 'd', 's', 'o', 'l', 'i', 'd']

def kwFacet : List Char := ['f', 'a', 'c', 'e', 't']

def kwNormal : List Char := ['n', 'o', 'r', 'm', 'a', 'l']

def kwOuter : List Char := ['o', 'u', 't', 'e', 'r']

def kwLoop : List Char := ['l', 'o', 'o', 'p']

def kwEndloop : List Char := ['e', 'n', 'd', 'l', 'o', 'o', 'p']

def kwEndfacet : List Char := ['e', 'n', 'd', 'f', 'a', 'c', 'e', 't']

def kwVertex : List Char := ['v', 'e', 'r', 't', 'e', 'x']

/-- Whitespace for ASCII STL tokenization. -/
def isWS (c : Char) : Bool := c = ' ' || c = '\t' || c = '\n' || c = '\r'

/-- Split a character stream into whitespace-delimited tokens; `cur` is the
current token being accumulated, in reverse. -/
def tokenize : List Char → List Char → List (List Char)
  | [], cur => if cur.isEmpty then [] else [cur.reverse]
  | c :: cs, cur =>
    if isWS c then
      if cur.isEmpty then tokenize cs [] else cur.reverse :: tokenize cs []
    else tokenize cs (c :: cur)

/-- Parsed ASCII facet: the three normal tokens and the three vertex
coordinate-token triples, kept as raw numeric tokens. -/
structure AsciiFacet where
  normToks : List Char × List Char × List Char
  vert0 : List Char × List Char × List Char
  vert1 : List Char × List Char × List Char
  vert2 : List Char × List Char × List Char
deriving DecidableEq

/-- Consume one `vertex x y z` group from the token stream. -/
def takeVertex : List (List Char) → Option ((List Char × List Char × List Char) × List (List Char))
  | v :: x :: y :: z :: rest => if lowEq v kwVertex then some ((x, y, z), rest) else none
  | _ => none

/-- Consume the remainder of one facet block after its leading `facet`
token: `normal nx ny nz outer loop`, exactly three vertex lines,
`endloop endfacet`. -/
def takeFacet (toks : List (List Char)) : Option (AsciiFacet × List (List Char)) :=
  match toks with
  | n :: nx :: ny :: nz :: o :: l :: rest =>
    if lowEq n kwNormal && lowEq o kwOuter && lowEq l kwLoop then
      match takeVertex rest with
      | some (a, r1) =>
        match takeVertex r1 with
        | some (b, r2) =>
          match takeVertex r2 with
          | some (c, r3) =>
            match r3 with
            | el :: ef :: r4 =>
              if lowEq el kwEndloop && lowEq ef kwEndfacet then
                some ({ normToks := (nx, ny, nz), vert0 := a, vert1 := b, vert2 := c }, r4)
              else none
            | _ => none
          | none => none
        | none => none
      | none => none
    else none
  | _ => none

/-- Modelled from the spec: body of the ASCII STL grammar (§4.3) after the
opening `solid` token. Facet blocks are collected until `endsolid`; a
facet block without exactly 3 vertex lines (or otherwise malformed) is
`MalformedFacet`; stray tokens between facets (names, blank lines) are
skipped. The fuel starts above the token count and every step consumes at
least one token, so exhaustion is unreachable; running out of input
without `endsolid` is treated as malformed. -/
def parseBodyToks : Nat → List (List Char) → List AsciiFacet → Except ParseError (List AsciiFacet)
  | 0, _, _ => Except.error ParseError.malformedFacet
  | _ + 1, [], _ => Except.error ParseError.malformedFacet
  | fuel + 1, t :: rest, acc =>
    if lowEq t kwEndsolid then Except.ok acc.reverse
    else if lowEq t kwFacet then
      match takeFacet rest with
      | some (f, rest2) => parseBodyToks fuel rest2 (f :: acc)
      | none => Except.error ParseError.malformedFacet
    else parseBodyToks fuel rest acc

/-- Modelled from the spec: `STLLoader.parseASCII` (invoked at line 84, not
part of the repository sources), per the grammar of §4.3: the text must
open with `solid` (case-insensitive) and is scanned structurally into
facets. Bytes are decoded to characters one-to-one, which agrees with a
UTF-8 decode on every buffer whose comparison-relevant tokens are ASCII. -/
def asciiParse (buf : List Nat) : Except ParseError (List AsciiFacet) :=
  let toks := tokenize (buf.map Char.ofNat) []
  match toks with
  | t :: rest =>
    if lowEq t kwSolid then parseBodyToks (rest.length + 1) rest []
    else Except.error ParseError.unrecognizedFormat
  | [] => Except.error ParseError.unrecognizedFormat

/-- Result of the parse flow: either the binary loader's triangle records
or the ASCII fallback's facets. -/
inductive STLGeometry where
  | binary : List RawTriangle → STLGeometry
  | ascii : List AsciiFacet → STLGeometry
deriving DecidableEq

/-- The source's "solid" check (lines 79–81): decode the first 5 bytes as
text, lowercase it, and compare with the string solid. -/
def solidMagic (buf : List Nat) : Bool :=
  lowEq ((buf.take 5).map Char.ofNat) kwSolid

/-- Shallow embedding of the parse flow of `STLModel`'s load callback
(lines 72–93): try `loader.parse` (binary, spec-modelled); on any
structural error, check the lowercased first five bytes against solid;
on a match re-parse the full buffer as ASCII, otherwise raise the
does-not-appear-to-be-valid-ASCII error, i.e. `UnrecognizedFormat` —
either failure ends in `setGeometry(null)`, so no mesh is produced. -/
def stlParseFlow (buf : List Nat) : Except ParseError STLGeometry :=
  match binaryParse buf with
  | Except.ok tris => Except.ok (STLGeometry.binary tris)
  | Except.error _ =>
    if solidMagic buf then
      match asciiParse buf with
      | Except.ok fs => Except.ok (STLGeometry.ascii fs)
      | Except.error e => Except.error e
    else Except.error ParseError.unrecognizedFormat

/-- Outcome of the geometry effect once a mesh has been parsed: the spec
(§4.4, §7) allows the normalizer to fail with a typed error, while the
source's effect (lines 106–141) has no failure branch at all. -/
inductive GeometryOutcome where
  | failure : ParseError → GeometryOutcome
  | render : NormalizedResult → GeometryOutcome
deriving DecidableEq

/-- Shallow embedding of what `STLModel` does with a parsed mesh: the
effect at lines 106–141 always computes the framing and the component
always renders a non-null geometry (line 150 only returns early for
`null`), so every parsed mesh — the zero-triangle mesh included — is
rendered; no error of any kind is raised. -/
def geometryEffect (m : MeshQ) : GeometryOutcome :=
  GeometryOutcome.render (positionModel m)

/-- Translate a box by a vector (what a translation does to min/max). -/
def shiftBox (t : Vec3) (b : Box3) : Box3 := ⟨b.lo + t, b.hi + t⟩

/-- Unit cube with corners at 0 and 1 on every axis, triangulated into the
usual 12 triangles (2 per face). -/
def baseUnitCube : MeshQ :=
  [⟨⟨0, 0, 0⟩, ⟨1, 0, 0⟩, ⟨1, 1, 0⟩⟩, ⟨⟨0, 0, 0⟩, ⟨1, 1, 0⟩, ⟨0, 1, 0⟩⟩,
   ⟨⟨0, 0, 1⟩, ⟨1, 0, 1⟩, ⟨1, 1, 1⟩⟩, ⟨⟨0, 0, 1⟩, ⟨1, 1, 1⟩, ⟨0, 1, 1⟩⟩,
   ⟨⟨0, 0, 0⟩, ⟨0, 1, 0⟩, ⟨0, 1, 1⟩⟩, ⟨⟨0, 0, 0⟩, ⟨0, 1, 1⟩, ⟨0, 0, 1⟩⟩,
   ⟨⟨1, 0, 0⟩, ⟨1, 1, 0⟩, ⟨1, 1, 1⟩⟩, ⟨⟨1, 0, 0⟩, ⟨1, 1, 1⟩, ⟨1, 0, 1⟩⟩,
   ⟨⟨0, 0, 0⟩, ⟨1, 0, 0⟩, ⟨1, 0, 1⟩⟩, ⟨⟨0, 0, 0⟩, ⟨1, 0, 1⟩, ⟨0, 0, 1⟩⟩,
   ⟨⟨0, 1, 0⟩, ⟨1, 1, 0⟩, ⟨1, 1, 1⟩⟩, ⟨⟨0, 1, 0⟩, ⟨1, 1, 1⟩, ⟨0, 1, 1⟩⟩]

/-- Unit cube placed at an arbitrary position: every vertex of
`baseUnitCube` translated by `c`. -/
def unitCube (c : Vec3) : MeshQ := translateMesh baseUnitCube c

/-- Degenerate mesh: one triangle whose three vertices coincide, so the
bounding box is a single point and `maxDim = 0`. -/
def pointMesh : MeshQ := [⟨⟨1, 2, 3⟩, ⟨1, 2, 3⟩, ⟨1, 2, 3⟩⟩]

/-- Concrete triangle used to instantiate universally quantified theorems. -/
def demoTri : Tri := ⟨⟨0, 0, 0⟩, ⟨2, 0, 0⟩, ⟨0, 4, 6⟩⟩

/-- Concrete fetch environment for the load-race schedules: url `u`
parses to a mesh of `u` copies of `demoTri`, so distinct urls give
distinct meshes. -/
def fetchDemo : Nat → MeshQ := fun u => List.replicate u demoTri

/-- Race schedule: load A (url 1) is issued, then load B (url 2) is issued
before A's fetch resolves; B's fetch resolves first and A's slow fetch
resolves last. -/
def raceSchedule : List LoadEvent :=
  [LoadEvent.issue 1, LoadEvent.issue 2, LoadEvent.resolve 1, LoadEvent.resolve 0]

/-!
Theorems. Lemmas about the bounding-box fold come first, then the claim
theorems with their witnesses and counterexamples.
-/

@[ext] theorem vec3_ext (a b : Vec3) (hx : a.x = b.x) (hy : a.y = b.y) (hz : a.z = b.z) : a = b := by
  cases a
  cases b
  simp_all

@[simp] theorem vec3_add_x (a b : Vec3) : (a + b).x = a.x + b.x := rfl

@[simp] theorem vec3_add_y (a b : Vec3) : (a + b).y = a.y + b.y := rfl

@[simp] theorem vec3_add_z (a b : Vec3) : (a + b).z = a.z + b.z := rfl

@[simp] theorem vec3_neg_x (a : Vec3) : (-a).x = -a.x := rfl

@[simp] theorem vec3_neg_y (a : Vec3) : (-a).y = -a.y := rfl

@[simp] theorem vec3_neg_z (a : Vec3) : (-a).z = -a.z := rfl

@[simp] theorem vec3_sub_x (a b : Vec3) : (a - b).x = a.x - b.x := rfl

@[simp] theorem vec3_sub_y (a b : Vec3) : (a - b).y = a.y - b.y := rfl

@[simp] theorem vec3_sub_z (a b : Vec3) : (a - b).z = a.z - b.z := rfl

@[simp] theorem vec3_zero_x : (0 : Vec3).x = 0 := rfl

@[simp] theorem vec3_zero_y : (0 : Vec3).y = 0 := rfl

@[simp] theorem vec3_zero_z : (0 : Vec3).z = 0 := rfl

theorem vmin_add_right (a b t : Vec3) : vmin (a + t) (b + t) = vmin a b + t := by
  ext <;> simp [vmin, min_add_add_right]

theorem vmax_add_right (a b t : Vec3) : vmax (a + t) (b + t) = vmax a b + t := by
  ext <;> simp [vmax, max_add_add_right]

theorem expandByPoint_shift (t : Vec3) (ob : Option Box3) (p : Vec3) :
    expandByPoint (ob.map (shiftBox t)) (p + t) = (expandByPoint ob p).map (shiftBox t) := by
  cases ob with
  | none => rfl
  | some bx => simp [expandByPoint, shiftBox, vmin_add_right, vmax_add_right]

theorem foldl_expand_shift (t : Vec3) (vs : List Vec3) :
    ∀ ob : Option Box3,
      List.foldl expandByPoint (ob.map (shiftBox t)) (vs.map (· + t)) =
        (List.foldl expandByPoint ob vs).map (shiftBox t) := by
  induction vs with
  | nil => intro ob; rfl
  | cons v vs ih =>
    intro ob
    simp only [List.map_cons, List.foldl_cons]
    rw [expandByPoint_shift t ob v]
    exact ih (expandByPoint ob v)

theorem verticesOf_translate (m : MeshQ) (t : Vec3) :
    verticesOf (translateMesh m t) = (verticesOf m).map (· + t) := by
  induction m with
  | nil => rfl
  | cons tr m ih =>
    simp [verticesOf, translateMesh, List.flatMap_cons] at ih ⊢
    exact ih

theorem computeBoundingBox_translate (m : MeshQ) (t : Vec3) :
    computeBoundingBox (translateMesh m t) = (computeBoundingBox m).map (shiftBox t) := by
  have h := foldl_expand_shift t (verticesOf m) none
  simpa [computeBoundingBox, verticesOf_translate] using h

theorem foldl_expand_some (vs : List Vec3) :
    ∀ b : Box3, ∃ b' : Box3, List.foldl expandByPoint (some b) vs = some b' := by
  induction vs with
  | nil => intro b; exact ⟨b, rfl⟩
  | cons v vs ih =>
    intro b
    simpa [expandByPoint] using ih ⟨vmin b.lo v, vmax b.hi v⟩

theorem computeBoundingBox_nonempty (m : MeshQ) (hm : m ≠ []) :
    ∃ b : Box3, computeBoundingBox m = some b := by
  cases m with
  | nil => exact absurd rfl hm
  | cons tr rest =>
    have : verticesOf (tr :: rest) = tr.v0 :: tr.v1 :: tr.v2 :: verticesOf rest := by
      simp [verticesOf]
    rw [computeBoundingBox, this]
    simp only [List.foldl_cons, expandByPoint]
    exact foldl_expand_some (verticesOf rest) _

theorem getSize_shift (ob : Option Box3) (t : Vec3) :
    getSize (ob.map (shiftBox t)) = getSize ob := by
  cases ob with
  | none => rfl
  | some bx =>
    simp only [Option.map_some, getSize]
    ext <;> simp [shiftBox]

theorem positionModel_size (m : MeshQ) :
    (positionModel m).size = getSize (computeBoundingBox m) := by
  simp only [positionModel, computeBoundingBox_translate, getSize_shift]

theorem positionModel_distance (m : MeshQ) :
    (positionModel m).distance = max3 (getSize (computeBoundingBox m)) * 2 := by
  have h := positionModel_size m
  simp only [positionModel] at h ⊢
  rw [h]

theorem positionModel_initialPosition (m : MeshQ) :
    (positionModel m).initialPosition =
      ⟨(positionModel m).distance, (positionModel m).distance, (positionModel m).distance⟩ := rfl

theorem positionModel_maxDim (m : MeshQ) :
    (positionModel m).maxDim = max3 (getSize (computeBoundingBox m)) := by
  have h := positionModel_size m
  simp only [positionModel] at h ⊢
  rw [h]

theorem pointMesh_size_zero : getSize (computeBoundingBox pointMesh) = ⟨0, 0, 0⟩ := by
  have hbb : computeBoundingBox pointMesh = some ⟨⟨1, 2, 3⟩, ⟨1, 2, 3⟩⟩ := by
    simp [computeBoundingBox, verticesOf, pointMesh, expandByPoint, vmin, vmax]
  rw [hbb]
  simp only [getSize]
  ext <;> simp

theorem pointMesh_maxDim_zero : (positionModel pointMesh).maxDim = 0 := by
  rw [positionModel_maxDim, pointMesh_size_zero]
  simp [max3]

theorem pointMesh_distance_zero : (positionModel pointMesh).distance = 0 := by
  rw [positionModel_distance, pointMesh_size_zero]
  simp [max3]

theorem baseUnitCube_size :
    getSize (computeBoundingBox baseUnitCube) = ⟨1, 1, 1⟩ := by
  have hbb : computeBoundingBox baseUnitCube = some ⟨⟨0, 0, 0⟩, ⟨1, 1, 1⟩⟩ := by
    norm_num [computeBoundingBox, verticesOf, baseUnitCube, expandByPoint, vmin, vmax,
      min_def, max_def]
  rw [hbb]
  simp only [getSize]
  ext <;> simp

theorem applyAction_initial (s : ViewerState) (a : UserAction) :
    (applyAction s a).initialCameraPosition = s.initialCameraPosition := by
  cases a <;> rfl

theorem applyActions_initial (acts : List UserAction) :
    ∀ s : ViewerState, (applyActions s acts).initialCameraPosition = s.initialCameraPosition := by
  induction acts with
  | nil => intro s; rfl
  | cons a acts ih =>
    intro s
    have h1 : applyActions s (a :: acts) = applyActions (applyAction s a) acts := rfl
    rw [h1, ih, applyAction_initial]

/-- C8: for every mesh with at least one triangle, after the geometry
normalizer runs (bounding box computed, geometry translated by minus the
box center) the stored bounding box — which is recomputed relative to the
translated geometry by `BufferGeometry.applyMatrix4` — is symmetric about
the origin on every axis. In the rational model the symmetry is exact,
hence within the claimed 1e-5 relative floating-point tolerance. -/
theorem normalized_bbox_symmetric (m : MeshQ) (hm : m ≠ []) :
    ∃ b : Box3, (positionModel m).boundingBox = some b ∧ b.lo = -b.hi ∧
      (positionModel m).boundingBox = computeBoundingBox (positionModel m).mesh := by
  obtain ⟨b, hb⟩ := computeBoundingBox_nonempty m hm
  refine ⟨shiftBox (-(getCenter (computeBoundingBox m))) b, ?_, ?_, rfl⟩
  · simp only [positionModel, computeBoundingBox_translate, hb]
    rfl
  · rw [hb]
    ext <;> simp [shiftBox, getCenter] <;> ring

/-- Witness for `normalized_bbox_symmetric` at a concrete one-triangle
mesh. -/
theorem normalized_bbox_symmetric_witness :
    ([demoTri] : MeshQ) ≠ [] ∧
      ∃ b : Box3, (positionModel [demoTri]).boundingBox = some b ∧ b.lo = -b.hi ∧
        (positionModel [demoTri]).boundingBox = computeBoundingBox (positionModel [demoTri]).mesh :=
  ⟨by decide, normalized_bbox_symmetric [demoTri] (by decide)⟩

/-- C3: for every non-empty mesh the view framer computes
`distance = maxDim * 2` from the bounding-box size (the translated box has
the same size as the original), camera position `(distance, distance,
distance)` and target the origin; and for a unit cube centered anywhere
the distance is `2 * 1`, twice the cube edge length, with all three
position components equal. -/
theorem viewFramer_distance_position :
    (∀ m : MeshQ, m ≠ [] →
        (positionModel m).distance = max3 (getSize (computeBoundingBox m)) * 2 ∧
        (positionModel m).initialPosition =
          ⟨(positionModel m).distance, (positionModel m).distance, (positionModel m).distance⟩ ∧
        (positionModel m).target = ⟨0, 0, 0⟩) ∧
    (∀ c : Vec3, (positionModel (unitCube c)).distance = 2 * 1 ∧
        (positionModel (unitCube c)).initialPosition = ⟨2 * 1, 2 * 1, 2 * 1⟩) := by
  constructor
  · intro m _
    exact ⟨positionModel_distance m, positionModel_initialPosition m, rfl⟩
  · intro c
    have hd : (positionModel (unitCube c)).distance = 2 * 1 := by
      rw [positionModel_distance, unitCube, computeBoundingBox_translate, getSize_shift,
        baseUnitCube_size]
      norm_num [max3, max_self]
    refine ⟨hd, ?_⟩
    rw [positionModel_initialPosition, hd]

/-- Witness for `viewFramer_distance_position` at a concrete mesh and a
concrete cube placement. -/
theorem viewFramer_distance_position_witness :
    (positionModel [demoTri]).distance = max3 (getSize (computeBoundingBox [demoTri])) * 2 ∧
      (positionModel (unitCube ⟨7, 8, 9⟩)).distance = 2 * 1 :=
  ⟨(viewFramer_distance_position.1 [demoTri] (by decide)).1,
   (viewFramer_distance_position.2 ⟨7, 8, 9⟩).1⟩

/-- C6 counterexample: for the degenerate single-point mesh the computed
camera distance is 0 — it is not a fixed positive minimum, and the camera
is placed exactly at the target. -/
theorem degenerate_distance_zero_counterexample :
    (positionModel pointMesh).maxDim = 0 ∧ (positionModel pointMesh).distance = 0 ∧
      (positionModel pointMesh).initialPosition = (positionModel pointMesh).target := by
  refine ⟨pointMesh_maxDim_zero, pointMesh_distance_zero, ?_⟩
  rw [positionModel_initialPosition, pointMesh_distance_zero]
  rfl

/-- C6 amended: whenever the bounding-box maximum dimension is zero the
view framer computes distance `0 * 2 = 0` — there is no minimum-distance
fallback — so the camera is placed at the target. -/
theorem maxDim_zero_distance_zero (m : MeshQ) (h : (positionModel m).maxDim = 0) :
    (positionModel m).distance = 0 ∧
      (positionModel m).initialPosition = (positionModel m).target := by
  have hd : (positionModel m).distance = (positionModel m).maxDim * 2 := rfl
  have hd0 : (positionModel m).distance = 0 := by rw [hd, h]; ring
  refine ⟨hd0, ?_⟩
  rw [positionModel_initialPosition, hd0]
  rfl

/-- Witness for `maxDim_zero_distance_zero` at the single-point mesh. -/
theorem maxDim_zero_distance_zero_witness :
    (positionModel pointMesh).maxDim = 0 ∧
      ((positionModel pointMesh).distance = 0 ∧
        (positionModel pointMesh).initialPosition = (positionModel pointMesh).target) :=
  ⟨pointMesh_maxDim_zero, maxDim_zero_distance_zero pointMesh pointMesh_maxDim_zero⟩

/-- C5 counterexample: the zero-triangle mesh is not rejected — the
geometry effect does not fail with `EmptyMesh` (it has no failure branch
at all). -/
theorem emptyMesh_not_rejected :
    geometryEffect [] ≠ GeometryOutcome.failure ParseError.emptyMesh := by
  decide

/-- C5 amended: the zero-triangle mesh is rendered rather than reported:
the effect renders it with the empty bounding box, camera distance 0 —
a silently blank scene, no `EmptyMesh` error. -/
theorem emptyMesh_rendered_blank :
    geometryEffect [] = GeometryOutcome.render (positionModel []) ∧
      (positionModel []).boundingBox = none ∧ (positionModel []).distance = 0 := by
  refine ⟨rfl, rfl, ?_⟩
  rw [positionModel_distance]
  show max3 (getSize none) * 2 = 0
  simp [getSize, max3, max_self]

/-- C9: the reset-view action is idempotent — running it twice in a row
from any viewer state yields exactly the same state (camera position,
zoom and orbit target), with no drift. -/
theorem resetView_idempotent (s : ViewerState) :
    viewerResetView (viewerResetView s) = viewerResetView s := rfl

/-- C4: after a mesh's framing has been applied (camera framed and the
computed initial position stored via `onInitialViewComputed`), every
subsequent reset — regardless of the interactions performed in between —
restores the camera to exactly the computed frame for that mesh
(position `(positionModel m).initialPosition`, zoom 1, target origin),
not to a hardcoded default. -/
theorem resetView_restores_computed_frame (s : ViewerState) (m : MeshQ) (acts : List UserAction) :
    (viewerResetView (applyActions (applyFraming s (positionModel m)) acts)).controls =
      { camera := { position := (positionModel m).initialPosition, zoom := 1 }
        target := ⟨0, 0, 0⟩ } := by
  have h := applyActions_initial acts (applyFraming s (positionModel m))
  simp only [viewerResetView]
  rw [h]
  rfl

/-- C10: before any framing has been computed the stored reset position is
the hardcoded `(5, 5, 5)` from line 194, whatever interactions have
happened; a reset at that point moves the camera to `(5, 5, 5)`, sets
zoom to 1 and the orbit target to the origin. -/
theorem initial_reset_frame_default (c : Controls) (acts : List UserAction) :
    (applyActions (mkViewerState c) acts).initialCameraPosition = ⟨5, 5, 5⟩ ∧
      (viewerResetView (applyActions (mkViewerState c) acts)).controls =
        { camera := { position := ⟨5, 5, 5⟩, zoom := 1 }, target := ⟨0, 0, 0⟩ } := by
  have h := applyActions_initial acts (mkViewerState c)
  constructor
  · rw [h]; rfl
  · simp only [viewerResetView, h]
    rfl

/-- C1 counterexample: load A (url 1) is issued, load B (url 2) is issued
before A resolves, B's fetch completes first and A's completes last — the
final geometry is A's mesh, not B's, because the stale callback is applied
unconditionally. -/
theorem stale_resolve_clobbers_newer :
    (runLoads fetchDemo raceSchedule).geometry = some (fetchDemo 1) ∧
      fetchDemo 1 ≠ fetchDemo 2 := by
  decide

/-- C1 amended: there is no load-generation token — a resolving fetch
always overwrites the geometry with its own mesh, no matter how many newer
loads were issued meanwhile (so the final state reflects whichever fetch
completes last), and issuing a load leaves the geometry unchanged. -/
theorem resolve_overwrites_unconditionally (fetch : Nat → MeshQ) (s : ModelState)
    (k url : Nat) (h : s.issued[k]? = some url) :
    (loadStep fetch s (LoadEvent.resolve k)).geometry = some (fetch url) ∧
      (loadStep fetch s (LoadEvent.issue url)).geometry = s.geometry := by
  constructor
  · simp [loadStep, h]
  · rfl

/-- Witness for `resolve_overwrites_unconditionally`: a stale resolve for
the old load (index 0) overwrites the newer load's mesh. -/
theorem resolve_overwrites_unconditionally_witness :
    (loadStep fetchDemo ⟨[1, 2], some (fetchDemo 2)⟩ (LoadEvent.resolve 0)).geometry =
        some (fetchDemo 1) ∧
      (loadStep fetchDemo ⟨[1, 2], some (fetchDemo 2)⟩ (LoadEvent.issue 1)).geometry =
        some (fetchDemo 2) :=
  resolve_overwrites_unconditionally fetchDemo ⟨[1, 2], some (fetchDemo 2)⟩ 0 1 (by decide)

/-- C2: for every buffer long enough to declare a triangle count `N`
(read little-endian at offset 80), the binary parse succeeds — producing
one raw triangle per 50-byte record — exactly when the buffer length is
`84 + 50*N`; any other length, even off by one byte, yields
`TruncatedOrCorrupt`, never a partial mesh. -/
theorem binaryParse_length_exact (buf : List Nat) (h : 84 ≤ buf.length) :
    (buf.length = 84 + 50 * readUInt32LE buf 80 →
      binaryParse buf = Except.ok ((List.range (readUInt32LE buf 80)).map (recordAt buf))) ∧
    (buf.length ≠ 84 + 50 * readUInt32LE buf 80 →
      binaryParse buf = Except.error ParseError.truncatedOrCorrupt) := by
  have hlt : ¬ buf.length < 84 := by omega
  constructor
  · intro he
    simp [binaryParse, hlt, he]
  · intro hne
    simp [binaryParse, hlt, hne]

/-- Witness for `binaryParse_length_exact`: an 85-byte all-zero buffer
declares `N = 0`, is one byte longer than the required 84, and is rejected
as `TruncatedOrCorrupt`. -/
theorem binaryParse_length_exact_witness :
    84 ≤ (List.replicate 85 0).length ∧
      binaryParse (List.replicate 85 0) = Except.error ParseError.truncatedOrCorrupt :=
  ⟨by decide, (binaryParse_length_exact (List.replicate 85 0) (by decide)).2 (by decide)⟩

/-- C7: whenever the binary parse raises a structural error, the flow
checks the lowercased first five bytes against solid: on a match the
full buffer goes to the ASCII parser (the flow's result is exactly the
ASCII parser's result), and on a mismatch the flow surfaces
`UnrecognizedFormat` and produces no mesh. -/
theorem fallback_solid_check (buf : List Nat) (e : ParseError)
    (h : binaryParse buf = Except.error e) :
    (solidMagic buf = true →
      stlParseFlow buf = Except.map STLGeometry.ascii (asciiParse buf)) ∧
    (solidMagic buf = false →
      stlParseFlow buf = Except.error ParseError.unrecognizedFormat) := by
  constructor
  · intro hs
    simp only [stlParseFlow, h, hs, if_true]
    cases asciiParse buf <;> rfl
  · intro hs
    simp only [stlParseFlow, h, hs]
    rfl

/-- Witness for `fallback_solid_check`: a 3-byte buffer fails the binary
parse, does not start with solid, and the flow reports
`UnrecognizedFormat`. -/
theorem fallback_solid_check_witness :
    stlParseFlow [0, 1, 2] = Except.error ParseError.unrecognizedFormat :=
  (fallback_solid_check [0, 1, 2] ParseError.truncatedOrCorrupt rfl).2 rfl
